import Mathlib

/-!
Shallow embedding of `src/agent_starter_pack/resources/cie_v1/stage5_refusal.rs`.

Modelling choices:
- Rust `[u8; N]` byte arrays become `List Nat`; the well-formedness of an
  input (each anchor having length 32) is carried as an explicit hypothesis
  where a theorem needs it.
- Rust `f64` fields are only ever compared with strict `<` / `>` in this
  module (no float arithmetic occurs), so they are modelled as `ℚ`, which
  carries the same linear-order behaviour on all the values the checks read.
- Rust `String` becomes Lean `String`; the digest only reads lengths.
- `Vec::sort_by_key` is a stable sort; it is modelled by the stable
  insertion sort `List.insertionSort` keyed on the same priority.
-/

/-- The arm phase state machine (`ArmPhase` in the source). -/
inductive ArmPhase
  | Orienting
  | Retrieving
  | Planning
  | Generating
  | Verifying
  | Correcting
  | Halted
deriving DecidableEq

/-- Stage-5 contamination taxonomy (`ContaminationClass` in the source). -/
inductive ContaminationClass
  | BiologicalIntrusion
  | ChemicalSpike
  | InstrumentDrift
  | LineageBreak
  | WorldlineImpossibility
deriving DecidableEq

/-- A single refusal finding (`RefusalFinding`); the Rust field `class` is
renamed `cls` because `class` is a Lean keyword. -/
structure RefusalFinding where
  cls : ContaminationClass
  detail : String
deriving DecidableEq

/-- The Stage-5 verdict (`RefusalVerdict`). -/
structure RefusalVerdict where
  ok : Bool
  next_phase : ArmPhase
  findings : List RefusalFinding
deriving DecidableEq

/-- Minimal SceneCapsule footprint (`SceneCapsule`). -/
structure SceneCapsule where
  scene_id : String
  world_id : String
  corridor_id : String
  finality_tag : String
  genesis_hash_sha256 : List Nat
  vaulted_blob_sha256 : List Nat
  merkle_root : List Nat
  prev_root : List Nat
  stage3_impossible_worldline : Bool
deriving DecidableEq

/-- Minimal config footprint (`EmulatorConfig`). -/
structure EmulatorConfig where
  build_id : List Nat
  config_hash_sha256 : List Nat
  max_frame_delta_us : Nat
  kaiser_floor : ℚ
deriving DecidableEq

/-- Telemetry that can trigger contamination refusal (`ContaminationTelemetry`). -/
structure ContaminationTelemetry where
  acetaldehyde_ppm : ℚ
  ethanol_ppm : ℚ
  instrument_drift_mm : ℚ
  biological_intrusion_flag : Bool
  worldline_impossible_flag : Bool
deriving DecidableEq

/-- Stage-5 thresholds (`RefusalPolicy`). -/
structure RefusalPolicy where
  acetaldehyde_ppm_max : ℚ
  ethanol_ppm_max : ℚ
  instrument_drift_mm_max : ℚ
  kaiser_floor_min : ℚ
deriving DecidableEq

/-- `out[start..start+src.len()].copy_from_slice(src)`: write the bytes of
`src` into `out` starting at index `start`. -/
def writeBytes : List Nat → Nat → List Nat → List Nat
  | out, _, [] => out
  | out, start, b :: rest => writeBytes (out.set start b) (start + 1) rest

/-- The all-zero 32-byte array `[0u8; 32]`. -/
def zero32 : List Nat := List.replicate 32 0

/-- `digest_scene_capsule_placeholder`: fold a few bytes of the capsule into a
stable 32-byte token, mirroring the Rust writes step by step
(`out[0..3]` the four string lengths masked with `0xFF`, `out[4..12]`,
`out[12..20]`, `out[20..28]` the first 8 bytes of the three anchors,
`out[28]` the worldline flag). -/
def digest_scene_capsule_placeholder (sc : SceneCapsule) : List Nat :=
  let out := List.replicate 32 0
  let out := out.set 0 (sc.scene_id.length % 256)
  let out := out.set 1 (sc.world_id.length % 256)
  let out := out.set 2 (sc.corridor_id.length % 256)
  let out := out.set 3 (sc.finality_tag.length % 256)
  let out := writeBytes out 4 (sc.genesis_hash_sha256.take 8)
  let out := writeBytes out 12 (sc.vaulted_blob_sha256.take 8)
  let out := writeBytes out 20 (sc.merkle_root.take 8)
  let out := out.set 28 (if sc.stage3_impossible_worldline then 1 else 0)
  out

/-- Finding pushed by the mutation check (step 0 in the source). -/
def mutationFinding : RefusalFinding :=
  { cls := ContaminationClass.WorldlineImpossibility,
    detail := "SceneCapsule mutated under refusal path (before != after)" }

/-- Finding pushed by the impossible-worldline check (step 1). -/
def worldlineFinding : RefusalFinding :=
  { cls := ContaminationClass.WorldlineImpossibility,
    detail := "Impossible worldline flagged (Stage 3 abortion)" }

/-- Finding pushed by the zeroed-anchors lineage check (step 2, first if). -/
def zeroedAnchorsFinding : RefusalFinding :=
  { cls := ContaminationClass.LineageBreak,
    detail := "Merkle anchors are zeroed (lineage undefined)" }

/-- Finding pushed by the degenerate-linkage lineage check (step 2, second if). -/
def degenerateLinkageFinding : RefusalFinding :=
  { cls := ContaminationClass.LineageBreak,
    detail := "prev_root equals merkle_root (degenerate linkage)" }

/-- Finding pushed by the biological-intrusion check (step 3). -/
def bioFinding : RefusalFinding :=
  { cls := ContaminationClass.BiologicalIntrusion,
    detail := "Biological intrusion flag asserted" }

/-- Finding pushed by the chemical-spike check (step 4). -/
def chemFinding : RefusalFinding :=
  { cls := ContaminationClass.ChemicalSpike,
    detail := "Chemical spike exceeds policy thresholds" }

/-- Finding pushed by the instrument-drift check (step 5). -/
def driftFinding : RefusalFinding :=
  { cls := ContaminationClass.InstrumentDrift,
    detail := "Instrument drift exceeds policy threshold" }

/-- Finding pushed by the Kaiser-floor check (step 6). -/
def floorFinding : RefusalFinding :=
  { cls := ContaminationClass.InstrumentDrift,
    detail := "Kaiser floor below minimum (spectral firewall weakened)" }

/-- The sort key used by `findings.sort_by_key` in the source. -/
def classPriority : ContaminationClass → Nat
  | ContaminationClass.BiologicalIntrusion => 10
  | ContaminationClass.ChemicalSpike => 20
  | ContaminationClass.InstrumentDrift => 30
  | ContaminationClass.LineageBreak => 40
  | ContaminationClass.WorldlineImpossibility => 50

/-- Comparison of findings by class priority (the `sort_by_key` order). -/
def findingLE (a b : RefusalFinding) : Prop :=
  classPriority a.cls ≤ classPriority b.cls

instance : DecidableRel findingLE :=
  fun a b => Nat.decLe (classPriority a.cls) (classPriority b.cls)

instance : IsTotal RefusalFinding findingLE :=
  ⟨fun a b => Nat.le_total (classPriority a.cls) (classPriority b.cls)⟩

instance : IsTrans RefusalFinding findingLE :=
  ⟨fun _ _ _ => Nat.le_trans⟩

/-- The findings in emission order: one conditional push per check, in the
order the source performs them. -/
def rawFindings (scene_before scene_after : SceneCapsule) (cfg : EmulatorConfig)
    (tel : ContaminationTelemetry) (policy : RefusalPolicy) : List RefusalFinding :=
  (if digest_scene_capsule_placeholder scene_before ≠
      digest_scene_capsule_placeholder scene_after then [mutationFinding] else []) ++
  (if scene_before.stage3_impossible_worldline || tel.worldline_impossible_flag then
      [worldlineFinding] else []) ++
  (if scene_before.prev_root = zero32 ∧ scene_before.merkle_root = zero32 then
      [zeroedAnchorsFinding] else []) ++
  (if scene_before.prev_root = scene_before.merkle_root then
      [degenerateLinkageFinding] else []) ++
  (if tel.biological_intrusion_flag then [bioFinding] else []) ++
  (if tel.acetaldehyde_ppm > policy.acetaldehyde_ppm_max ∨
      tel.ethanol_ppm > policy.ethanol_ppm_max then [chemFinding] else []) ++
  (if tel.instrument_drift_mm > policy.instrument_drift_mm_max then
      [driftFinding] else []) ++
  (if cfg.kaiser_floor < policy.kaiser_floor_min then [floorFinding] else [])

/-- `findings.sort_by_key(...)`: a stable sort keyed on `classPriority`. -/
def sortFindings (l : List RefusalFinding) : List RefusalFinding :=
  List.insertionSort findingLE l

/-- `stage5_refusal_contract`: evaluate contamination refusal. -/
def stage5_refusal_contract (scene_before scene_after : SceneCapsule)
    (cfg : EmulatorConfig) (tel : ContaminationTelemetry)
    (policy : RefusalPolicy) : RefusalVerdict :=
  let findings := sortFindings (rawFindings scene_before scene_after cfg tel policy)
  if findings.isEmpty then
    { ok := true, next_phase := ArmPhase.Verifying, findings := findings }
  else
    { ok := false, next_phase := ArmPhase.Halted, findings := findings }

/-- `enforce_halted_forbids`: the halt-enforcement predicate. -/
def enforce_halted_forbids (phase : ArmPhase) : Bool :=
  phase = ArmPhase.Halted

/-! ### Concrete fixtures used as witnesses and counterexamples -/

/-- A clean capsule: distinct non-zero anchors, no flags. -/
def sceneClean : SceneCapsule :=
  { scene_id := "scene"
    world_id := "world"
    corridor_id := "corr"
    finality_tag := "GOLD"
    genesis_hash_sha256 := List.replicate 32 1
    vaulted_blob_sha256 := List.replicate 32 2
    merkle_root := List.replicate 32 3
    prev_root := List.replicate 32 4
    stage3_impossible_worldline := false }

/-- `sceneClean` with a longer scene identifier, so its digest differs. -/
def sceneMutated : SceneCapsule := { sceneClean with scene_id := "scene2" }

/-- `sceneClean` with only `prev_root` changed: the digest does not read it. -/
def scenePrevMut : SceneCapsule := { sceneClean with prev_root := List.replicate 32 7 }

/-- A clean configuration: floor exactly at the policy minimum. -/
def cfgClean : EmulatorConfig :=
  { build_id := List.replicate 20 9
    config_hash_sha256 := List.replicate 32 8
    max_frame_delta_us := 1490
    kaiser_floor := 1 }

/-- Clean telemetry: all readings inside policy, no flags. -/
def telClean : ContaminationTelemetry :=
  { acetaldehyde_ppm := 10
    ethanol_ppm := 200
    instrument_drift_mm := 0
    biological_intrusion_flag := false
    worldline_impossible_flag := false }

/-- Policy thresholds used by the fixtures. -/
def polClean : RefusalPolicy :=
  { acetaldehyde_ppm_max := 50
    ethanol_ppm_max := 500
    instrument_drift_mm_max := 1
    kaiser_floor_min := 1 }

/-! ### Helper lemmas about the sort and the emitted findings -/

theorem sortFindings_perm (l : List RefusalFinding) : (sortFindings l).Perm l :=
  List.perm_insertionSort findingLE l

theorem sortFindings_eq_nil_iff (l : List RefusalFinding) :
    sortFindings l = [] ↔ l = [] := by
  constructor
  · intro h
    have hp := sortFindings_perm l
    rw [h] at hp
    exact hp.symm.eq_nil
  · intro h
    rw [h]
    rfl

theorem stage5_findings_eq (scene_before scene_after : SceneCapsule)
    (cfg : EmulatorConfig) (tel : ContaminationTelemetry) (policy : RefusalPolicy) :
    (stage5_refusal_contract scene_before scene_after cfg tel policy).findings =
      sortFindings (rawFindings scene_before scene_after cfg tel policy) := by
  simp only [stage5_refusal_contract]
  split <;> rfl

theorem stage5_cases (scene_before scene_after : SceneCapsule)
    (cfg : EmulatorConfig) (tel : ContaminationTelemetry) (policy : RefusalPolicy) :
    (rawFindings scene_before scene_after cfg tel policy = [] ∧
      stage5_refusal_contract scene_before scene_after cfg tel policy =
        { ok := true, next_phase := ArmPhase.Verifying, findings := [] }) ∨
    (rawFindings scene_before scene_after cfg tel policy ≠ [] ∧
      (stage5_refusal_contract scene_before scene_after cfg tel policy).ok = false ∧
      (stage5_refusal_contract scene_before scene_after cfg tel policy).next_phase =
        ArmPhase.Halted) := by
  by_cases h : rawFindings scene_before scene_after cfg tel policy = []
  · left
    refine ⟨h, ?_⟩
    have hs : sortFindings (rawFindings scene_before scene_after cfg tel policy) = [] :=
      (sortFindings_eq_nil_iff _).mpr h
    simp [stage5_refusal_contract, hs]
  · right
    refine ⟨h, ?_⟩
    have hs : sortFindings (rawFindings scene_before scene_after cfg tel policy) ≠ [] :=
      fun hc => h ((sortFindings_eq_nil_iff _).mp hc)
    simp only [stage5_refusal_contract]
    rw [if_neg (by simpa [List.isEmpty_iff] using hs)]
    exact ⟨rfl, rfl⟩

theorem mem_stage5_findings (f : RefusalFinding) (scene_before scene_after : SceneCapsule)
    (cfg : EmulatorConfig) (tel : ContaminationTelemetry) (policy : RefusalPolicy) :
    f ∈ (stage5_refusal_contract scene_before scene_after cfg tel policy).findings ↔
      f ∈ rawFindings scene_before scene_after cfg tel policy := by
  rw [stage5_findings_eq]
  exact (sortFindings_perm _).mem_iff

theorem mem_ite_singleton {c : Prop} [Decidable c] (x f : RefusalFinding) :
    (f ∈ if c then [x] else []) ↔ c ∧ f = x := by
  split <;> simp_all

theorem mem_rawFindings (f : RefusalFinding) (scene_before scene_after : SceneCapsule)
    (cfg : EmulatorConfig) (tel : ContaminationTelemetry) (policy : RefusalPolicy) :
    f ∈ rawFindings scene_before scene_after cfg tel policy ↔
      ((digest_scene_capsule_placeholder scene_before ≠
          digest_scene_capsule_placeholder scene_after) ∧ f = mutationFinding) ∨
      ((scene_before.stage3_impossible_worldline = true ∨
          tel.worldline_impossible_flag = true) ∧ f = worldlineFinding) ∨
      ((scene_before.prev_root = zero32 ∧ scene_before.merkle_root = zero32) ∧
          f = zeroedAnchorsFinding) ∨
      (scene_before.prev_root = scene_before.merkle_root ∧ f = degenerateLinkageFinding) ∨
      (tel.biological_intrusion_flag = true ∧ f = bioFinding) ∨
      ((tel.acetaldehyde_ppm > policy.acetaldehyde_ppm_max ∨
          tel.ethanol_ppm > policy.ethanol_ppm_max) ∧ f = chemFinding) ∨
      (tel.instrument_drift_mm > policy.instrument_drift_mm_max ∧ f = driftFinding) ∨
      (cfg.kaiser_floor < policy.kaiser_floor_min ∧ f = floorFinding) := by
  simp [rawFindings, mem_ite_singleton, List.mem_append, or_assoc]

theorem orderedInsert_filter_class (c : ContaminationClass) (a : RefusalFinding)
    (l : List RefusalFinding) :
    (List.orderedInsert findingLE a l).filter (fun f => decide (f.cls = c)) =
      if a.cls = c then a :: l.filter (fun f => decide (f.cls = c))
      else l.filter (fun f => decide (f.cls = c)) := by
  induction l with
  | nil =>
    by_cases hc : a.cls = c <;> simp [hc, List.filter]
  | cons b t ih =>
    simp only [List.orderedInsert]
    by_cases hab : findingLE a b
    · rw [if_pos hab]
      by_cases hc : a.cls = c <;> simp [hc, List.filter_cons]
    · rw [if_neg hab]
      have hbc : a.cls = c → b.cls ≠ c := fun hac hbcc =>
        hab (by simp [findingLE, hac, hbcc])
      by_cases hc : a.cls = c
      · have hb : ¬ b.cls = c := hbc hc
        simp [List.filter_cons, hb, hc, ih]
      · simp [List.filter_cons, hc, ih]

theorem sortFindings_filter_class (c : ContaminationClass) (l : List RefusalFinding) :
    (sortFindings l).filter (fun f => decide (f.cls = c)) =
      l.filter (fun f => decide (f.cls = c)) := by
  induction l with
  | nil => rfl
  | cons a t ih =>
    simp only [sortFindings, List.insertionSort] at ih ⊢
    rw [orderedInsert_filter_class]
    by_cases hc : a.cls = c
    · rw [if_pos hc, ih]
      simp [List.filter_cons, hc]
    · rw [if_neg hc, ih]
      simp [List.filter_cons, hc]

theorem sortFindings_sorted (l : List RefusalFinding) :
    List.Sorted findingLE (sortFindings l) :=
  List.sorted_insertionSort findingLE l

theorem filter_ite_singleton (p : RefusalFinding → Bool) {c : Prop} [Decidable c]
    (x : RefusalFinding) :
    (if c then [x] else []).filter p = if c ∧ p x = true then [x] else [] := by
  by_cases hc : c
  · by_cases hp : p x = true <;> simp [hc, hp, List.filter]
  · simp [hc]

theorem countP_ite_singleton (p : RefusalFinding → Bool) {c : Prop} [Decidable c]
    (x : RefusalFinding) :
    (if c then [x] else []).countP p = if c ∧ p x = true then 1 else 0 := by
  by_cases hc : c
  · by_cases hp : p x = true <;> simp [hc, hp, List.countP_cons]
  · simp [hc]

theorem mem_mutation_iff (scene_before scene_after : SceneCapsule) (cfg : EmulatorConfig)
    (tel : ContaminationTelemetry) (policy : RefusalPolicy) :
    mutationFinding ∈ (stage5_refusal_contract scene_before scene_after cfg tel policy).findings ↔
      digest_scene_capsule_placeholder scene_before ≠
        digest_scene_capsule_placeholder scene_after := by
  rw [mem_stage5_findings, mem_rawFindings]
  simp [(by decide : mutationFinding ≠ worldlineFinding),
    (by decide : mutationFinding ≠ zeroedAnchorsFinding),
    (by decide : mutationFinding ≠ degenerateLinkageFinding),
    (by decide : mutationFinding ≠ bioFinding),
    (by decide : mutationFinding ≠ chemFinding),
    (by decide : mutationFinding ≠ driftFinding),
    (by decide : mutationFinding ≠ floorFinding)]

theorem mem_worldline_iff (scene_before scene_after : SceneCapsule) (cfg : EmulatorConfig)
    (tel : ContaminationTelemetry) (policy : RefusalPolicy) :
    worldlineFinding ∈ (stage5_refusal_contract scene_before scene_after cfg tel policy).findings ↔
      (scene_before.stage3_impossible_worldline = true ∨
        tel.worldline_impossible_flag = true) := by
  rw [mem_stage5_findings, mem_rawFindings]
  simp [(by decide : worldlineFinding ≠ mutationFinding),
    (by decide : worldlineFinding ≠ zeroedAnchorsFinding),
    (by decide : worldlineFinding ≠ degenerateLinkageFinding),
    (by decide : worldlineFinding ≠ bioFinding),
    (by decide : worldlineFinding ≠ chemFinding),
    (by decide : worldlineFinding ≠ driftFinding),
    (by decide : worldlineFinding ≠ floorFinding)]

theorem mem_zeroedAnchors_iff (scene_before scene_after : SceneCapsule) (cfg : EmulatorConfig)
    (tel : ContaminationTelemetry) (policy : RefusalPolicy) :
    zeroedAnchorsFinding ∈
        (stage5_refusal_contract scene_before scene_after cfg tel policy).findings ↔
      (scene_before.prev_root = zero32 ∧ scene_before.merkle_root = zero32) := by
  rw [mem_stage5_findings, mem_rawFindings]
  simp [(by decide : zeroedAnchorsFinding ≠ mutationFinding),
    (by decide : zeroedAnchorsFinding ≠ worldlineFinding),
    (by decide : zeroedAnchorsFinding ≠ degenerateLinkageFinding),
    (by decide : zeroedAnchorsFinding ≠ bioFinding),
    (by decide : zeroedAnchorsFinding ≠ chemFinding),
    (by decide : zeroedAnchorsFinding ≠ driftFinding),
    (by decide : zeroedAnchorsFinding ≠ floorFinding)]

theorem mem_degenerate_iff (scene_before scene_after : SceneCapsule) (cfg : EmulatorConfig)
    (tel : ContaminationTelemetry) (policy : RefusalPolicy) :
    degenerateLinkageFinding ∈
        (stage5_refusal_contract scene_before scene_after cfg tel policy).findings ↔
      scene_before.prev_root = scene_before.merkle_root := by
  rw [mem_stage5_findings, mem_rawFindings]
  simp [(by decide : degenerateLinkageFinding ≠ mutationFinding),
    (by decide : degenerateLinkageFinding ≠ worldlineFinding),
    (by decide : degenerateLinkageFinding ≠ zeroedAnchorsFinding),
    (by decide : degenerateLinkageFinding ≠ bioFinding),
    (by decide : degenerateLinkageFinding ≠ chemFinding),
    (by decide : degenerateLinkageFinding ≠ driftFinding),
    (by decide : degenerateLinkageFinding ≠ floorFinding)]

theorem mem_bio_iff (scene_before scene_after : SceneCapsule) (cfg : EmulatorConfig)
    (tel : ContaminationTelemetry) (policy : RefusalPolicy) :
    bioFinding ∈ (stage5_refusal_contract scene_before scene_after cfg tel policy).findings ↔
      tel.biological_intrusion_flag = true := by
  rw [mem_stage5_findings, mem_rawFindings]
  simp [(by decide : bioFinding ≠ mutationFinding),
    (by decide : bioFinding ≠ worldlineFinding),
    (by decide : bioFinding ≠ zeroedAnchorsFinding),
    (by decide : bioFinding ≠ degenerateLinkageFinding),
    (by decide : bioFinding ≠ chemFinding),
    (by decide : bioFinding ≠ driftFinding),
    (by decide : bioFinding ≠ floorFinding)]

theorem mem_chem_iff (scene_before scene_after : SceneCapsule) (cfg : EmulatorConfig)
    (tel : ContaminationTelemetry) (policy : RefusalPolicy) :
    chemFinding ∈ (stage5_refusal_contract scene_before scene_after cfg tel policy).findings ↔
      (tel.acetaldehyde_ppm > policy.acetaldehyde_ppm_max ∨
        tel.ethanol_ppm > policy.ethanol_ppm_max) := by
  rw [mem_stage5_findings, mem_rawFindings]
  simp [(by decide : chemFinding ≠ mutationFinding),
    (by decide : chemFinding ≠ worldlineFinding),
    (by decide : chemFinding ≠ zeroedAnchorsFinding),
    (by decide : chemFinding ≠ degenerateLinkageFinding),
    (by decide : chemFinding ≠ bioFinding),
    (by decide : chemFinding ≠ driftFinding),
    (by decide : chemFinding ≠ floorFinding)]

theorem mem_drift_iff (scene_before scene_after : SceneCapsule) (cfg : EmulatorConfig)
    (tel : ContaminationTelemetry) (policy : RefusalPolicy) :
    driftFinding ∈ (stage5_refusal_contract scene_before scene_after cfg tel policy).findings ↔
      tel.instrument_drift_mm > policy.instrument_drift_mm_max := by
  rw [mem_stage5_findings, mem_rawFindings]
  simp [(by decide : driftFinding ≠ mutationFinding),
    (by decide : driftFinding ≠ worldlineFinding),
    (by decide : driftFinding ≠ zeroedAnchorsFinding),
    (by decide : driftFinding ≠ degenerateLinkageFinding),
    (by decide : driftFinding ≠ bioFinding),
    (by decide : driftFinding ≠ chemFinding),
    (by decide : driftFinding ≠ floorFinding)]

theorem mem_floor_iff (scene_before scene_after : SceneCapsule) (cfg : EmulatorConfig)
    (tel : ContaminationTelemetry) (policy : RefusalPolicy) :
    floorFinding ∈ (stage5_refusal_contract scene_before scene_after cfg tel policy).findings ↔
      cfg.kaiser_floor < policy.kaiser_floor_min := by
  rw [mem_stage5_findings, mem_rawFindings]
  simp [(by decide : floorFinding ≠ mutationFinding),
    (by decide : floorFinding ≠ worldlineFinding),
    (by decide : floorFinding ≠ zeroedAnchorsFinding),
    (by decide : floorFinding ≠ degenerateLinkageFinding),
    (by decide : floorFinding ≠ bioFinding),
    (by decide : floorFinding ≠ chemFinding),
    (by decide : floorFinding ≠ driftFinding)]

/-! ### Claim theorems -/

/-- C1: the verdict of `stage5_refusal_contract` is `ok = true` with phase
`Verifying` exactly when the findings list is empty, and otherwise `ok = false`
with phase `Halted`; the returned findings carry every emitted finding (they
are a permutation of the emission-ordered list), and no check short-circuits
the others: each of the eight conditions contributes its finding to the same
verdict exactly when it holds. -/
theorem stage5_refusal_verdict_complete (scene_before scene_after : SceneCapsule)
    (cfg : EmulatorConfig) (tel : ContaminationTelemetry) (policy : RefusalPolicy) :
    ((stage5_refusal_contract scene_before scene_after cfg tel policy).findings = [] →
      (stage5_refusal_contract scene_before scene_after cfg tel policy).ok = true ∧
      (stage5_refusal_contract scene_before scene_after cfg tel policy).next_phase =
        ArmPhase.Verifying) ∧
    ((stage5_refusal_contract scene_before scene_after cfg tel policy).findings ≠ [] →
      (stage5_refusal_contract scene_before scene_after cfg tel policy).ok = false ∧
      (stage5_refusal_contract scene_before scene_after cfg tel policy).next_phase =
        ArmPhase.Halted) ∧
    ((stage5_refusal_contract scene_before scene_after cfg tel policy).findings).Perm
      (rawFindings scene_before scene_after cfg tel policy) ∧
    (mutationFinding ∈
        (stage5_refusal_contract scene_before scene_after cfg tel policy).findings ↔
      digest_scene_capsule_placeholder scene_before ≠
        digest_scene_capsule_placeholder scene_after) ∧
    (worldlineFinding ∈
        (stage5_refusal_contract scene_before scene_after cfg tel policy).findings ↔
      (scene_before.stage3_impossible_worldline = true ∨
        tel.worldline_impossible_flag = true)) ∧
    (zeroedAnchorsFinding ∈
        (stage5_refusal_contract scene_before scene_after cfg tel policy).findings ↔
      (scene_before.prev_root = zero32 ∧ scene_before.merkle_root = zero32)) ∧
    (degenerateLinkageFinding ∈
        (stage5_refusal_contract scene_before scene_after cfg tel policy).findings ↔
      scene_before.prev_root = scene_before.merkle_root) ∧
    (bioFinding ∈
        (stage5_refusal_contract scene_before scene_after cfg tel policy).findings ↔
      tel.biological_intrusion_flag = true) ∧
    (chemFinding ∈
        (stage5_refusal_contract scene_before scene_after cfg tel policy).findings ↔
      (tel.acetaldehyde_ppm > policy.acetaldehyde_ppm_max ∨
        tel.ethanol_ppm > policy.ethanol_ppm_max)) ∧
    (driftFinding ∈
        (stage5_refusal_contract scene_before scene_after cfg tel policy).findings ↔
      tel.instrument_drift_mm > policy.instrument_drift_mm_max) ∧
    (floorFinding ∈
        (stage5_refusal_contract scene_before scene_after cfg tel policy).findings ↔
      cfg.kaiser_floor < policy.kaiser_floor_min) := by
  refine ⟨?_, ?_, ?_, mem_mutation_iff _ _ _ _ _, mem_worldline_iff _ _ _ _ _,
    mem_zeroedAnchors_iff _ _ _ _ _, mem_degenerate_iff _ _ _ _ _,
    mem_bio_iff _ _ _ _ _, mem_chem_iff _ _ _ _ _, mem_drift_iff _ _ _ _ _,
    mem_floor_iff _ _ _ _ _⟩
  · rcases stage5_cases scene_before scene_after cfg tel policy with
      ⟨_, heq⟩ | ⟨hraw, _, _⟩
    · intro _
      rw [heq]
      exact ⟨rfl, rfl⟩
    · intro h
      exfalso
      apply hraw
      rw [stage5_findings_eq] at h
      exact (sortFindings_eq_nil_iff _).mp h
  · rcases stage5_cases scene_before scene_after cfg tel policy with
      ⟨_, heq⟩ | ⟨_, hok, hph⟩
    · intro h
      exfalso
      apply h
      rw [heq]
    · intro _
      exact ⟨hok, hph⟩
  · rw [stage5_findings_eq]
    exact sortFindings_perm _

/-- C1 witness: at the clean fixtures the findings list is empty and the
verdict is `ok = true`, phase `Verifying`. -/
theorem stage5_refusal_verdict_complete_witness :
    (stage5_refusal_contract sceneClean sceneClean cfgClean telClean polClean).ok = true ∧
    (stage5_refusal_contract sceneClean sceneClean cfgClean telClean polClean).next_phase =
      ArmPhase.Verifying :=
  (stage5_refusal_verdict_complete sceneClean sceneClean cfgClean telClean polClean).1
    (by decide)

/-- C2: the returned findings are sorted non-decreasingly by the fixed class
priority Biological(10) < Chemical(20) < Instrument(30) < Lineage(40) <
Worldline(50), and the sort is stable: restricted to any one class the output
equals the emission-ordered list restricted to that class; in particular when
both the drift-threshold and the floor-breach condition fire, the
InstrumentDrift findings appear as the drift one followed by the floor one. -/
theorem stage5_findings_sorted_stable (scene_before scene_after : SceneCapsule)
    (cfg : EmulatorConfig) (tel : ContaminationTelemetry) (policy : RefusalPolicy) :
    (classPriority ContaminationClass.BiologicalIntrusion = 10 ∧
      classPriority ContaminationClass.ChemicalSpike = 20 ∧
      classPriority ContaminationClass.InstrumentDrift = 30 ∧
      classPriority ContaminationClass.LineageBreak = 40 ∧
      classPriority ContaminationClass.WorldlineImpossibility = 50) ∧
    List.Sorted findingLE
      ((stage5_refusal_contract scene_before scene_after cfg tel policy).findings) ∧
    (∀ c : ContaminationClass,
      ((stage5_refusal_contract scene_before scene_after cfg tel policy).findings).filter
          (fun f => decide (f.cls = c)) =
        (rawFindings scene_before scene_after cfg tel policy).filter
          (fun f => decide (f.cls = c))) ∧
    (tel.instrument_drift_mm > policy.instrument_drift_mm_max →
      cfg.kaiser_floor < policy.kaiser_floor_min →
      ((stage5_refusal_contract scene_before scene_after cfg tel policy).findings).filter
          (fun f => decide (f.cls = ContaminationClass.InstrumentDrift)) =
        [driftFinding, floorFinding]) := by
  refine ⟨by decide, ?_, ?_, ?_⟩
  · rw [stage5_findings_eq]
    exact sortFindings_sorted _
  · intro c
    rw [stage5_findings_eq, sortFindings_filter_class]
  · intro h7 h8
    rw [stage5_findings_eq, sortFindings_filter_class]
    simp [rawFindings, List.filter_append, filter_ite_singleton, h7, h8,
      mutationFinding, worldlineFinding, zeroedAnchorsFinding, degenerateLinkageFinding,
      bioFinding, chemFinding, driftFinding, floorFinding]

/-- C2 witness: with drift above threshold and floor below minimum, the
InstrumentDrift findings of the output are the drift one then the floor one. -/
theorem stage5_findings_sorted_stable_witness :
    ((stage5_refusal_contract sceneClean sceneClean
        { cfgClean with kaiser_floor := 0 }
        { telClean with instrument_drift_mm := 5 } polClean).findings).filter
        (fun f => decide (f.cls = ContaminationClass.InstrumentDrift)) =
      [driftFinding, floorFinding] :=
  (stage5_findings_sorted_stable sceneClean sceneClean
      { cfgClean with kaiser_floor := 0 }
      { telClean with instrument_drift_mm := 5 } polClean).2.2.2
    (by decide) (by decide)

/-- C3 counterexample: at a concrete input whose digests differ, no returned
finding has the reason text "snapshot mutated under refusal path
(before != after)" claimed by the spec — the code emits "SceneCapsule
mutated under refusal path (before != after)" instead. -/
theorem stage5_mutation_detail_counterexample :
    digest_scene_capsule_placeholder sceneClean ≠
      digest_scene_capsule_placeholder sceneMutated ∧
    ∀ f ∈ (stage5_refusal_contract sceneClean sceneMutated cfgClean telClean
        polClean).findings,
      f.detail ≠ "snapshot mutated under refusal path (before != after)" := by
  decide

/-- C3 amended: `stage5_refusal_contract` emits a WorldlineImpossibility
finding whose reason text is exactly "SceneCapsule mutated under refusal path
(before != after)" if and only if the digests of the before and after
snapshots differ; that text occurs on no other finding. -/
theorem stage5_mutation_detail_iff (scene_before scene_after : SceneCapsule)
    (cfg : EmulatorConfig) (tel : ContaminationTelemetry) (policy : RefusalPolicy) :
    (mutationFinding ∈
        (stage5_refusal_contract scene_before scene_after cfg tel policy).findings ↔
      digest_scene_capsule_placeholder scene_before ≠
        digest_scene_capsule_placeholder scene_after) ∧
    mutationFinding.cls = ContaminationClass.WorldlineImpossibility ∧
    mutationFinding.detail = "SceneCapsule mutated under refusal path (before != after)" ∧
    (∀ f ∈ (stage5_refusal_contract scene_before scene_after cfg tel policy).findings,
      f.detail = "SceneCapsule mutated under refusal path (before != after)" →
        f = mutationFinding) := by
  refine ⟨mem_mutation_iff _ _ _ _ _, rfl, rfl, ?_⟩
  intro f hf hd
  rw [mem_stage5_findings, mem_rawFindings] at hf
  have hchoice : f = mutationFinding ∨ f = worldlineFinding ∨ f = zeroedAnchorsFinding ∨
      f = degenerateLinkageFinding ∨ f = bioFinding ∨ f = chemFinding ∨
      f = driftFinding ∨ f = floorFinding := by tauto
  rcases hchoice with rfl | rfl | rfl | rfl | rfl | rfl | rfl | rfl
  · rfl
  all_goals exact absurd hd (by decide)

/-- C3 witness: at the concrete mutated pair, the mutation finding with the
exact code reason text is returned. -/
theorem stage5_mutation_detail_iff_witness :
    mutationFinding ∈
      (stage5_refusal_contract sceneClean sceneMutated cfgClean telClean
        polClean).findings :=
  (stage5_mutation_detail_iff sceneClean sceneMutated cfgClean telClean polClean).1.mpr
    (by decide)

/-- C4: if the before-snapshot carries the stage-3 impossible-worldline flag
or telemetry carries the worldline-impossible flag, the verdict contains the
impossible-worldline WorldlineImpossibility finding (distinct from the
mutation finding) and `ok = false`. -/
theorem stage5_worldline_propagation (scene_before scene_after : SceneCapsule)
    (cfg : EmulatorConfig) (tel : ContaminationTelemetry) (policy : RefusalPolicy)
    (h : scene_before.stage3_impossible_worldline = true ∨
      tel.worldline_impossible_flag = true) :
    worldlineFinding ∈
      (stage5_refusal_contract scene_before scene_after cfg tel policy).findings ∧
    worldlineFinding.cls = ContaminationClass.WorldlineImpossibility ∧
    worldlineFinding ≠ mutationFinding ∧
    (stage5_refusal_contract scene_before scene_after cfg tel policy).ok = false := by
  have hm : worldlineFinding ∈
      (stage5_refusal_contract scene_before scene_after cfg tel policy).findings :=
    (mem_worldline_iff _ _ _ _ _).mpr h
  refine ⟨hm, rfl, by decide, ?_⟩
  rcases stage5_cases scene_before scene_after cfg tel policy with
    ⟨_, heq⟩ | ⟨_, hok, _⟩
  · exfalso
    rw [heq] at hm
    simp at hm
  · exact hok

/-- C4 witness: with the stage-3 flag set and everything else clean, the
impossible-worldline finding is present and the verdict fails. -/
theorem stage5_worldline_propagation_witness :
    worldlineFinding ∈
      (stage5_refusal_contract { sceneClean with stage3_impossible_worldline := true }
        { sceneClean with stage3_impossible_worldline := true } cfgClean telClean
        polClean).findings ∧
    worldlineFinding.cls = ContaminationClass.WorldlineImpossibility ∧
    worldlineFinding ≠ mutationFinding ∧
    (stage5_refusal_contract { sceneClean with stage3_impossible_worldline := true }
      { sceneClean with stage3_impossible_worldline := true } cfgClean telClean
      polClean).ok = false :=
  stage5_worldline_propagation { sceneClean with stage3_impossible_worldline := true }
    { sceneClean with stage3_impossible_worldline := true } cfgClean telClean polClean
    (Or.inl rfl)

/-- C5: when the before-snapshot has both roots all-zero, both distinct
LineageBreak findings (zeroed anchors and degenerate linkage) are returned;
and the degenerate-linkage check fires whenever `prev_root = merkle_root`,
regardless of zero-ness. -/
theorem stage5_lineage_double_finding (scene_before scene_after : SceneCapsule)
    (cfg : EmulatorConfig) (tel : ContaminationTelemetry) (policy : RefusalPolicy) :
    (scene_before.prev_root = zero32 → scene_before.merkle_root = zero32 →
      zeroedAnchorsFinding ∈
        (stage5_refusal_contract scene_before scene_after cfg tel policy).findings ∧
      degenerateLinkageFinding ∈
        (stage5_refusal_contract scene_before scene_after cfg tel policy).findings) ∧
    (scene_before.prev_root = scene_before.merkle_root →
      degenerateLinkageFinding ∈
        (stage5_refusal_contract scene_before scene_after cfg tel policy).findings) ∧
    zeroedAnchorsFinding ≠ degenerateLinkageFinding := by
  refine ⟨?_, ?_, by decide⟩
  · intro hp hm
    exact ⟨(mem_zeroedAnchors_iff _ _ _ _ _).mpr ⟨hp, hm⟩,
      (mem_degenerate_iff _ _ _ _ _).mpr (hp.trans hm.symm)⟩
  · intro hpm
    exact (mem_degenerate_iff _ _ _ _ _).mpr hpm

/-- C5 witness: with both roots all-zero, both LineageBreak findings appear. -/
theorem stage5_lineage_double_finding_witness :
    zeroedAnchorsFinding ∈
      (stage5_refusal_contract
        { sceneClean with prev_root := zero32, merkle_root := zero32 } sceneClean
        cfgClean telClean polClean).findings ∧
    degenerateLinkageFinding ∈
      (stage5_refusal_contract
        { sceneClean with prev_root := zero32, merkle_root := zero32 } sceneClean
        cfgClean telClean polClean).findings :=
  (stage5_lineage_double_finding
      { sceneClean with prev_root := zero32, merkle_root := zero32 } sceneClean
      cfgClean telClean polClean).1 rfl rfl

/-- C6: the returned findings contain exactly one ChemicalSpike-classed
finding when either concentration strictly exceeds its policy maximum (one
finding even if both do), and none otherwise — at equality none is emitted. -/
theorem stage5_chem_spike_count (scene_before scene_after : SceneCapsule)
    (cfg : EmulatorConfig) (tel : ContaminationTelemetry) (policy : RefusalPolicy) :
    ((stage5_refusal_contract scene_before scene_after cfg tel policy).findings).countP
        (fun f => decide (f.cls = ContaminationClass.ChemicalSpike)) =
      if tel.acetaldehyde_ppm > policy.acetaldehyde_ppm_max ∨
          tel.ethanol_ppm > policy.ethanol_ppm_max then 1 else 0 := by
  rw [stage5_findings_eq]
  have hp := List.Perm.countP_eq (fun f => decide (f.cls = ContaminationClass.ChemicalSpike))
    (sortFindings_perm (rawFindings scene_before scene_after cfg tel policy))
  rw [hp]
  simp [rawFindings, List.countP_append, countP_ite_singleton,
    mutationFinding, worldlineFinding, zeroedAnchorsFinding, degenerateLinkageFinding,
    bioFinding, chemFinding, driftFinding, floorFinding]

/-- C7: the floor-breach InstrumentDrift finding is returned exactly when
`cfg.kaiser_floor < policy.kaiser_floor_min` (equality emits none); it is a
distinct value from the drift-threshold InstrumentDrift finding, shares its
class, and both appear together when both conditions hold. -/
theorem stage5_floor_breach_iff (scene_before scene_after : SceneCapsule)
    (cfg : EmulatorConfig) (tel : ContaminationTelemetry) (policy : RefusalPolicy) :
    (floorFinding ∈
        (stage5_refusal_contract scene_before scene_after cfg tel policy).findings ↔
      cfg.kaiser_floor < policy.kaiser_floor_min) ∧
    floorFinding ≠ driftFinding ∧
    floorFinding.cls = ContaminationClass.InstrumentDrift ∧
    driftFinding.cls = ContaminationClass.InstrumentDrift ∧
    (tel.instrument_drift_mm > policy.instrument_drift_mm_max →
      cfg.kaiser_floor < policy.kaiser_floor_min →
      driftFinding ∈
        (stage5_refusal_contract scene_before scene_after cfg tel policy).findings ∧
      floorFinding ∈
        (stage5_refusal_contract scene_before scene_after cfg tel policy).findings) :=
  ⟨mem_floor_iff _ _ _ _ _, by decide, rfl, rfl, fun h7 h8 =>
    ⟨(mem_drift_iff _ _ _ _ _).mpr h7, (mem_floor_iff _ _ _ _ _).mpr h8⟩⟩

/-- C7 witness: drift above threshold and floor below minimum yield both
InstrumentDrift findings. -/
theorem stage5_floor_breach_iff_witness :
    driftFinding ∈
      (stage5_refusal_contract sceneClean sceneClean { cfgClean with kaiser_floor := 0 }
        { telClean with instrument_drift_mm := 5 } polClean).findings ∧
    floorFinding ∈
      (stage5_refusal_contract sceneClean sceneClean { cfgClean with kaiser_floor := 0 }
        { telClean with instrument_drift_mm := 5 } polClean).findings :=
  (stage5_floor_breach_iff sceneClean sceneClean { cfgClean with kaiser_floor := 0 }
      { telClean with instrument_drift_mm := 5 } polClean).2.2.2.2
    (by decide) (by decide)

theorem take_eight_of_len (l : List Nat) (h : l.length = 32) :
    ∃ b1 b2 b3 b4 b5 b6 b7 b8, l.take 8 = [b1, b2, b3, b4, b5, b6, b7, b8] := by
  rcases l with _ | ⟨b1, l⟩
  · simp at h
  rcases l with _ | ⟨b2, l⟩
  · simp at h
  rcases l with _ | ⟨b3, l⟩
  · simp at h
  rcases l with _ | ⟨b4, l⟩
  · simp at h
  rcases l with _ | ⟨b5, l⟩
  · simp at h
  rcases l with _ | ⟨b6, l⟩
  · simp at h
  rcases l with _ | ⟨b7, l⟩
  · simp at h
  rcases l with _ | ⟨b8, l⟩
  · simp at h
  exact ⟨b1, b2, b3, b4, b5, b6, b7, b8, rfl⟩

theorem digestWrites_eq (s1 s2 s3 s4 g1 g2 g3 g4 g5 g6 g7 g8
    v1 v2 v3 v4 v5 v6 v7 v8 m1 m2 m3 m4 m5 m6 m7 m8 fl : Nat) :
    (writeBytes
        (writeBytes
          (writeBytes
            (((((List.replicate 32 0).set 0 s1).set 1 s2).set 2 s3).set 3 s4)
            4 [g1, g2, g3, g4, g5, g6, g7, g8])
          12 [v1, v2, v3, v4, v5, v6, v7, v8])
        20 [m1, m2, m3, m4, m5, m6, m7, m8]).set 28 fl =
      [s1, s2, s3, s4] ++ [g1, g2, g3, g4, g5, g6, g7, g8] ++
        [v1, v2, v3, v4, v5, v6, v7, v8] ++ [m1, m2, m3, m4, m5, m6, m7, m8] ++
        [fl] ++ List.replicate 3 0 := by
  have h1 : writeBytes
      (((((List.replicate 32 0).set 0 s1).set 1 s2).set 2 s3).set 3 s4)
      4 [g1, g2, g3, g4, g5, g6, g7, g8] =
      [s1, s2, s3, s4, g1, g2, g3, g4, g5, g6, g7, g8] ++ List.replicate 20 0 := rfl
  rw [h1]
  have h2 : writeBytes
      ([s1, s2, s3, s4, g1, g2, g3, g4, g5, g6, g7, g8] ++ List.replicate 20 0)
      12 [v1, v2, v3, v4, v5, v6, v7, v8] =
      [s1, s2, s3, s4, g1, g2, g3, g4, g5, g6, g7, g8,
        v1, v2, v3, v4, v5, v6, v7, v8] ++ List.replicate 12 0 := rfl
  rw [h2]
  have h3 : writeBytes
      ([s1, s2, s3, s4, g1, g2, g3, g4, g5, g6, g7, g8,
        v1, v2, v3, v4, v5, v6, v7, v8] ++ List.replicate 12 0)
      20 [m1, m2, m3, m4, m5, m6, m7, m8] =
      [s1, s2, s3, s4, g1, g2, g3, g4, g5, g6, g7, g8,
        v1, v2, v3, v4, v5, v6, v7, v8, m1, m2, m3, m4, m5, m6, m7, m8] ++
        List.replicate 4 0 := rfl
  rw [h3]
  rfl

/-- C8: the digest is the reference fold — a 32-byte token made of the four
string lengths mod 256, the first 8 bytes of each of the three anchors, the
worldline flag byte, and zeros for the rest — and it is deterministic: two
snapshots equal on the fields it reads yield equal tokens. -/
theorem digest_reference_fold (sc : SceneCapsule)
    (hg : sc.genesis_hash_sha256.length = 32)
    (hv : sc.vaulted_blob_sha256.length = 32)
    (hm : sc.merkle_root.length = 32) :
    digest_scene_capsule_placeholder sc =
      [sc.scene_id.length % 256, sc.world_id.length % 256, sc.corridor_id.length % 256,
          sc.finality_tag.length % 256] ++
        sc.genesis_hash_sha256.take 8 ++ sc.vaulted_blob_sha256.take 8 ++
        sc.merkle_root.take 8 ++
        [if sc.stage3_impossible_worldline then 1 else 0] ++ List.replicate 3 0 ∧
    (digest_scene_capsule_placeholder sc).length = 32 ∧
    (∀ sc2 : SceneCapsule, sc.scene_id = sc2.scene_id → sc.world_id = sc2.world_id →
      sc.corridor_id = sc2.corridor_id → sc.finality_tag = sc2.finality_tag →
      sc.genesis_hash_sha256 = sc2.genesis_hash_sha256 →
      sc.vaulted_blob_sha256 = sc2.vaulted_blob_sha256 →
      sc.merkle_root = sc2.merkle_root →
      sc.stage3_impossible_worldline = sc2.stage3_impossible_worldline →
      digest_scene_capsule_placeholder sc = digest_scene_capsule_placeholder sc2) := by
  obtain ⟨g1, g2, g3, g4, g5, g6, g7, g8, hge⟩ := take_eight_of_len _ hg
  obtain ⟨v1, v2, v3, v4, v5, v6, v7, v8, hve⟩ := take_eight_of_len _ hv
  obtain ⟨m1, m2, m3, m4, m5, m6, m7, m8, hme⟩ := take_eight_of_len _ hm
  have hmain : digest_scene_capsule_placeholder sc =
      [sc.scene_id.length % 256, sc.world_id.length % 256, sc.corridor_id.length % 256,
          sc.finality_tag.length % 256] ++
        sc.genesis_hash_sha256.take 8 ++ sc.vaulted_blob_sha256.take 8 ++
        sc.merkle_root.take 8 ++
        [if sc.stage3_impossible_worldline then 1 else 0] ++ List.replicate 3 0 := by
    simp only [digest_scene_capsule_placeholder]
    rw [hge, hve, hme]
    exact digestWrites_eq _ _ _ _ _ _ _ _ _ _ _ _ _ _ _ _ _ _ _ _ _ _ _ _ _ _ _ _ _
  refine ⟨hmain, ?_, ?_⟩
  · rw [hmain, hge, hve, hme]
    simp
  · intro sc2 h1 h2 h3 h4 h5 h6 h7 h8
    simp only [digest_scene_capsule_placeholder]
    rw [h1, h2, h3, h4, h5, h6, h7, h8]

/-- C8 witness: the layout and the 32-byte size hold at the clean fixture. -/
theorem digest_reference_fold_witness :
    digest_scene_capsule_placeholder sceneClean =
      [sceneClean.scene_id.length % 256, sceneClean.world_id.length % 256,
          sceneClean.corridor_id.length % 256, sceneClean.finality_tag.length % 256] ++
        sceneClean.genesis_hash_sha256.take 8 ++ sceneClean.vaulted_blob_sha256.take 8 ++
        sceneClean.merkle_root.take 8 ++
        [if sceneClean.stage3_impossible_worldline then 1 else 0] ++
        List.replicate 3 0 ∧
    (digest_scene_capsule_placeholder sceneClean).length = 32 :=
  ⟨(digest_reference_fold sceneClean (by decide) (by decide) (by decide)).1,
    (digest_reference_fold sceneClean (by decide) (by decide) (by decide)).2.1⟩

/-- C9: the digest ignores `prev_root`, the bytes past the first 8 of each
anchor, and the characters (as opposed to the lengths) of the identifier
strings; concretely, two snapshots differing only in `prev_root` are distinct
yet share a digest, and such a before/after pair produces no mutation finding. -/
theorem digest_blind_spot :
    (∀ (sc : SceneCapsule) (p : List Nat),
      digest_scene_capsule_placeholder { sc with prev_root := p } =
        digest_scene_capsule_placeholder sc) ∧
    (∀ sc1 sc2 : SceneCapsule,
      sc1.scene_id.length = sc2.scene_id.length →
      sc1.world_id.length = sc2.world_id.length →
      sc1.corridor_id.length = sc2.corridor_id.length →
      sc1.finality_tag.length = sc2.finality_tag.length →
      sc1.genesis_hash_sha256.take 8 = sc2.genesis_hash_sha256.take 8 →
      sc1.vaulted_blob_sha256.take 8 = sc2.vaulted_blob_sha256.take 8 →
      sc1.merkle_root.take 8 = sc2.merkle_root.take 8 →
      sc1.stage3_impossible_worldline = sc2.stage3_impossible_worldline →
      digest_scene_capsule_placeholder sc1 = digest_scene_capsule_placeholder sc2) ∧
    (sceneClean ≠ scenePrevMut ∧
      digest_scene_capsule_placeholder sceneClean =
        digest_scene_capsule_placeholder scenePrevMut ∧
      mutationFinding ∉
        (stage5_refusal_contract sceneClean scenePrevMut cfgClean telClean
          polClean).findings) := by
  refine ⟨fun sc p => rfl, ?_, by decide⟩
  intro sc1 sc2 h1 h2 h3 h4 h5 h6 h7 h8
  simp only [digest_scene_capsule_placeholder]
  rw [h1, h2, h3, h4, h5, h6, h7, h8]

/-- C9 witness: at the concrete pair differing only in `prev_root`, the
digest-read fields agree and the digests are equal. -/
theorem digest_blind_spot_witness :
    digest_scene_capsule_placeholder sceneClean =
      digest_scene_capsule_placeholder scenePrevMut :=
  digest_blind_spot.2.1 sceneClean scenePrevMut rfl rfl rfl rfl rfl rfl rfl rfl

/-- C10: the verdict does not depend on `build_id`, `config_hash_sha256`, and
`max_frame_delta_us` of the configuration, nor on any field of the after
snapshot other than those the digest reads: two calls whose inputs agree on
`kaiser_floor` and on the digest-read fields of the after snapshot return
identical verdicts. -/
theorem stage5_noninterference (scene_before a1 a2 : SceneCapsule)
    (cfg1 cfg2 : EmulatorConfig) (tel : ContaminationTelemetry) (policy : RefusalPolicy)
    (hk : cfg1.kaiser_floor = cfg2.kaiser_floor)
    (h1 : a1.scene_id = a2.scene_id) (h2 : a1.world_id = a2.world_id)
    (h3 : a1.corridor_id = a2.corridor_id) (h4 : a1.finality_tag = a2.finality_tag)
    (h5 : a1.genesis_hash_sha256 = a2.genesis_hash_sha256)
    (h6 : a1.vaulted_blob_sha256 = a2.vaulted_blob_sha256)
    (h7 : a1.merkle_root = a2.merkle_root)
    (h8 : a1.stage3_impossible_worldline = a2.stage3_impossible_worldline) :
    stage5_refusal_contract scene_before a1 cfg1 tel policy =
      stage5_refusal_contract scene_before a2 cfg2 tel policy := by
  have hdig : digest_scene_capsule_placeholder a1 = digest_scene_capsule_placeholder a2 := by
    simp only [digest_scene_capsule_placeholder]
    rw [h1, h2, h3, h4, h5, h6, h7, h8]
  have hraw : rawFindings scene_before a1 cfg1 tel policy =
      rawFindings scene_before a2 cfg2 tel policy := by
    simp only [rawFindings]
    rw [hdig, hk]
  simp only [stage5_refusal_contract]
  rw [hraw]

/-- C10 witness: changing `build_id` and `max_frame_delta_us`, and the
`prev_root` of the after snapshot, leaves the verdict identical. -/
theorem stage5_noninterference_witness :
    stage5_refusal_contract sceneClean sceneClean cfgClean telClean polClean =
      stage5_refusal_contract sceneClean scenePrevMut
        { cfgClean with build_id := List.replicate 20 0, max_frame_delta_us := 7 }
        telClean polClean :=
  stage5_noninterference sceneClean sceneClean scenePrevMut cfgClean
    { cfgClean with build_id := List.replicate 20 0, max_frame_delta_us := 7 }
    telClean polClean rfl rfl rfl rfl rfl rfl rfl rfl rfl
